import Mathlib

/-!
Shallow embedding of the interview decision core of the pirtis-voice-agent
backend (question scoring/selection, skip-rule filter, risk-rule evaluator,
quick-mode and precise-mode completion policies), together with theorems
settling the specification claims about it.

Modelling conventions:
* Python floats (scores, weights, confidences) are embedded as exact
  rationals `ℚ`; the scoring code only adds and multiplies, so the rational
  semantics is the intended real-number semantics of the formula.
* Python dicts with fixed key schemas (`question` dicts, `slot_def` dicts,
  skip-rule dicts, ...) become structures; a `dict.get(k, d)` with a default
  becomes a total field, a `dict.get(k)` that may return `None` becomes an
  `Option` field.
* A slot-value map `Dict[str, SlotValue]` becomes `String → Option SlotValue`
  (`none` = key absent).  Slot values themselves (Python `Any`) are embedded
  through their string form `str(value)` as `Option String` (`none` =
  Python `None`); Python truthiness of a string value is `s ≠ ""`.
* `str.lower()` is `str_lower` (character-wise `Char.toLower`),
  `str.strip()` is `py_strip` (whitespace trimmed from both ends),
  Python `pat in s` (substring) is list-infix on the character lists.
* Python's stable `list.sort(key=..., reverse=True)` is `List.mergeSort`
  with the reversed comparison on the key: both are the unique stable
  descending-by-key sort, so they agree element for element.
-/

/-- Python `str.lower()`: character-wise lower-casing. -/
def str_lower (s : String) : String :=
  ⟨s.data.map Char.toLower⟩

/-- Python `str.strip()`: whitespace removed from both ends. -/
def py_strip (s : String) : String :=
  ⟨((s.data.dropWhile Char.isWhitespace).reverse.dropWhile Char.isWhitespace).reverse⟩

/-- Python substring test `pattern in s`. -/
def str_contains (s pattern : String) : Bool :=
  decide (pattern.toList <:+: s.toList)

/-- One slot with value and confidence (models.SlotValue).  `value = none`
models Python `value is None`. -/
structure SlotValue where
  value : Option String
  confidence : ℚ
deriving DecidableEq

/-- Slot map `Dict[str, SlotValue]`: `none` means the key is absent. -/
def Slots : Type := String → Option SlotValue

/-- Slot definition dict as read by scoring (`slot_key`/`key`/`is_required`
lookups; absent keys give `none` resp. `False`). -/
structure SlotDef where
  slot_key : Option String
  key : Option String
  is_required : Bool
deriving DecidableEq

/-- Question definition dict as read by scoring (`question_id`,
`base_priority` default 50, `round_hint`, coverage lists, `enabled`
default `True`, text variants). -/
structure QuestionDef where
  question_id : String
  text_lt : Option String
  text_en : Option String
  base_priority : ℚ
  round_hint : Option Int
  slot_coverage : List String
  risk_coverage : List String
  enabled : Bool
deriving DecidableEq

/-- Scoring weights: the `weights.get(name, default)` lookups of
`calculate_question_score` made total. -/
structure ScoringWeights where
  base_priority : ℚ
  missing_slot : ℚ
  required_slot_bonus : ℚ
  risk : ℚ
  round_fit : ℚ
  asked_penalty : ℚ
deriving DecidableEq

/-- Output question (models.Question). -/
structure Question where
  id : String
  text : String
  round_hint : Option Int
deriving DecidableEq

/-- Active risk flag (models.RiskFlag). -/
structure RiskFlag where
  code : String
  severity : String
  note : Option String
  evidence : List String
deriving DecidableEq

/-- Skip rule dict: `rule.get("condition_slot", "")` etc. (string fields
defaulted to `""`, list fields to `[]`). -/
structure SkipRule where
  condition_slot : String
  condition_type : String
  condition_values : List String
  skip_question_ids : List String
deriving DecidableEq

/-- Python `a or b` on optional strings: the right operand when the left is
falsy (`None` or `""`). -/
def py_or_str (a b : Option String) : Option String :=
  match a with
  | some s => if s = "" then b else some s
  | none => b

/-- Stringify-and-lower step of `evaluate_skip_rules`:
`str(slot_value.value).lower() if slot_value.value else ""`. -/
def skip_slot_str (sv : SlotValue) : String :=
  match sv.value with
  | none => ""
  | some s => if s = "" then "" else str_lower s

/-- Condition dispatch of `evaluate_skip_rules` for a present slot value:
the four `condition_type` branches; any other type yields `False`. -/
def skip_condition_met (rule : SkipRule) (sv : SlotValue) : Bool :=
  let slot_str := skip_slot_str sv
  if rule.condition_type = "contains_any" then
    rule.condition_values.any (fun v => str_contains slot_str (str_lower v))
  else if rule.condition_type = "not_contains_any" then
    !(rule.condition_values.any (fun v => str_contains slot_str (str_lower v)))
  else if rule.condition_type = "equals_any" then
    (rule.condition_values.map str_lower).contains slot_str
  else if rule.condition_type = "not_equals_any" then
    !((rule.condition_values.map str_lower).contains slot_str)
  else
    false

/-- scoring.evaluate_skip_rules: fold over the rules; a rule whose
condition slot is absent from the map is skipped (`continue`), a rule whose
condition holds unions its `skip_question_ids` into the accumulator. -/
def evaluate_skip_rules_from (skip_rules : List SkipRule) (slots : Slots)
    (acc : Finset String) : Finset String :=
  match skip_rules with
  | [] => acc
  | rule :: rest =>
      match slots rule.condition_slot with
      | none => evaluate_skip_rules_from rest slots acc
      | some sv =>
          if skip_condition_met rule sv then
            evaluate_skip_rules_from rest slots (acc ∪ rule.skip_question_ids.toFinset)
          else
            evaluate_skip_rules_from rest slots acc

/-- scoring.evaluate_skip_rules with the empty initial set. -/
def evaluate_skip_rules (skip_rules : List SkipRule) (slots : Slots) : Finset String :=
  evaluate_skip_rules_from skip_rules slots ∅

/-- scoring.calculate_question_score, statement by statement: `score`
starts at 0.0 and each term is added in turn. -/
def calculate_question_score (question : QuestionDef) (current_round : Int)
    (missing_slots : Finset String) (active_risk_codes : Finset String)
    (asked_question_ids : Finset String) (required_slots : Finset String)
    (weights : ScoringWeights) : ℚ :=
  let score : ℚ := 0
  let score := score + question.base_priority * weights.base_priority
  let slot_coverage := question.slot_coverage.toFinset
  let covered_missing := (slot_coverage ∩ missing_slots).card
  let score := score + covered_missing * weights.missing_slot
  let covered_required := (slot_coverage ∩ required_slots ∩ missing_slots).card
  let score := score + covered_required * weights.required_slot_bonus
  let risk_coverage := question.risk_coverage.toFinset
  let covered_risks := (risk_coverage ∩ active_risk_codes).card
  let score := score + covered_risks * weights.risk
  let score := if question.round_hint = some current_round then score + weights.round_fit else score
  let score := if question.question_id ∈ asked_question_ids then score + weights.asked_penalty else score
  score

/-- Effective key of a slot definition:
`slot_key = slot_def.get("slot_key") or slot_def.get("key")`, then the
`if slot_key:` truthiness guard (`none` when falsy). -/
def slot_def_key (sd : SlotDef) : Option String :=
  match py_or_str sd.slot_key sd.key with
  | none => none
  | some s => if s = "" then none else some s

/-- Missing-slot loop of select_next_questions: a slot is added when its
definition has a (truthy) key and the slot map has no entry for it or the
entry's confidence is below the threshold. -/
def missing_slots_from (slot_definitions : List SlotDef) (slots : Slots)
    (confidence_threshold : ℚ) (acc : Finset String) : Finset String :=
  match slot_definitions with
  | [] => acc
  | sd :: rest =>
      match slot_def_key sd with
      | none => missing_slots_from rest slots confidence_threshold acc
      | some slot_key =>
          match slots slot_key with
          | none => missing_slots_from rest slots confidence_threshold (insert slot_key acc)
          | some sv =>
              if sv.confidence < confidence_threshold then
                missing_slots_from rest slots confidence_threshold (insert slot_key acc)
              else
                missing_slots_from rest slots confidence_threshold acc

/-- Missing-slot set of select_next_questions (loop started empty). -/
def compute_missing_slots (slot_definitions : List SlotDef) (slots : Slots)
    (confidence_threshold : ℚ) : Finset String :=
  missing_slots_from slot_definitions slots confidence_threshold ∅

/-- Required-slot set comprehension of select_next_questions (slot
definitions with `is_required`; a definition whose both key fields are
falsy contributes Python `None`, which no string coverage can match and is
therefore dropped from the string set). -/
def compute_required_slots (slot_definitions : List SlotDef) : Finset String :=
  ((slot_definitions.filter (fun s => s.is_required)).filterMap
    (fun s => py_or_str s.slot_key s.key)).toFinset

/-- Question text lookup of select_next_questions:
`q.get("text_lt") or q.get("text_en", "")`. -/
def question_text (q : QuestionDef) : String :=
  match py_or_str q.text_lt (some (q.text_en.getD "")) with
  | some s => s
  | none => ""

/-- Output Question built by select_next_questions for a selected entry. -/
def question_output (q : QuestionDef) : Question :=
  { id := q.question_id, text := question_text q, round_hint := q.round_hint }

/-- Scoring loop of select_next_questions: disabled questions and questions
in the skip set are passed over (`continue`), the rest are paired with
their score, in input order. -/
def scored_questions (questions : List QuestionDef) (questions_to_skip : Finset String)
    (current_round : Int) (missing_slots active_risk_codes asked_set required_slots : Finset String)
    (weights : ScoringWeights) : List (ℚ × QuestionDef) :=
  questions.filterMap (fun q =>
    if !q.enabled then none
    else if q.question_id ∈ questions_to_skip then none
    else some (calculate_question_score q current_round missing_slots active_risk_codes
        asked_set required_slots weights, q))

/-- Python's stable `scored_questions.sort(key=lambda x: x[0], reverse=True)`:
the stable merge sort descending by score (ties keep input order). -/
def sort_by_score_desc (l : List (ℚ × QuestionDef)) : List (ℚ × QuestionDef) :=
  l.mergeSort (fun a b => decide (b.1 ≤ a.1))

/-- scoring.select_next_questions: skip-rule filter, missing/required slot
sets, risk-code set, score-filter loop, stable descending sort, take
`count`, build output questions.  The default confidence threshold at the
call sites is 0.55. -/
def select_next_questions (questions : List QuestionDef) (slots : Slots)
    (risk_flags : List RiskFlag) (asked_question_ids : List String)
    (current_round : Int) (weights : ScoringWeights)
    (slot_definitions : List SlotDef) (skip_rules : List SkipRule)
    (count : Nat) (confidence_threshold : ℚ) : List Question :=
  let questions_to_skip :=
    if skip_rules.isEmpty then (∅ : Finset String)
    else evaluate_skip_rules skip_rules slots
  let missing_slots := compute_missing_slots slot_definitions slots confidence_threshold
  let required_slots := compute_required_slots slot_definitions
  let active_risk_codes := (risk_flags.map RiskFlag.code).toFinset
  let asked_set := asked_question_ids.toFinset
  let scored := scored_questions questions questions_to_skip current_round
    missing_slots active_risk_codes asked_set required_slots weights
  ((sort_by_score_desc scored).take count).map (fun p => question_output p.2)

/-- Condition operator of a risk-rule condition dict: which of the three
operator keys is present (`unknown` = none of them, the fail-closed case). -/
inductive CondOp where
  | contains_any (patterns : List String)
  | not_contains_any (patterns : List String)
  | eq_any (values : List String)
  | unknown
deriving DecidableEq

/-- One risk-rule condition: its `slot` key (possibly absent) and operator. -/
structure Condition where
  slot : Option String
  op : CondOp
deriving DecidableEq

/-- Shape of `rule_json`: an `all` dict, an `any` dict, or a bare condition. -/
inductive RuleCond where
  | all (conditions : List Condition)
  | any (conditions : List Condition)
  | single (c : Condition)
deriving DecidableEq

/-- Risk rule row as read by evaluate_risk_rules (`enabled` default `True`,
`code` default `"UNKNOWN"`, `severity` default `"medium"`). -/
structure RiskRule where
  enabled : Bool
  code : Option String
  severity : Option String
  note_template : Option String
  rule_json : RuleCond
deriving DecidableEq

/-- risk._slot_contains_any. -/
def _slot_contains_any (slot_value : Option String) (patterns : List String) : Bool :=
  match slot_value with
  | none => false
  | some v => patterns.any (fun pattern => str_contains (str_lower v) (str_lower pattern))

/-- risk._slot_not_contains_any (vacuously true on an absent value). -/
def _slot_not_contains_any (slot_value : Option String) (patterns : List String) : Bool :=
  match slot_value with
  | none => true
  | some v => !(patterns.any (fun pattern => str_contains (str_lower v) (str_lower pattern)))

/-- risk._slot_eq_any (case-insensitive, stripped equality; an absent value
equals nothing). -/
def _slot_eq_any (slot_value : Option String) (values : List String) : Bool :=
  match slot_value with
  | none => false
  | some v => values.any (fun w => py_strip (str_lower w) = py_strip (str_lower v))

/-- risk._evaluate_condition: falsy slot key fails; otherwise the slot's
value (absent entry ⇒ `None`) is tested by the condition's operator;
an unrecognized operator evaluates to `False`. -/
def _evaluate_condition (slots : Slots) (c : Condition) : Bool :=
  match c.slot with
  | none => false
  | some slot_key =>
      if slot_key = "" then false
      else
        let slot_value :=
          match slots slot_key with
          | none => none
          | some sv => sv.value
        match c.op with
        | .contains_any patterns => _slot_contains_any slot_value patterns
        | .not_contains_any patterns => _slot_not_contains_any slot_value patterns
        | .eq_any values => _slot_eq_any slot_value values
        | .unknown => false

/-- risk._evaluate_rule: `all` = conjunction over children, `any` =
disjunction, a bare condition is evaluated directly. -/
def _evaluate_rule (slots : Slots) (rule_json : RuleCond) : Bool :=
  match rule_json with
  | .all conditions => conditions.all (fun c => _evaluate_condition slots c)
  | .any conditions => conditions.any (fun c => _evaluate_condition slots c)
  | .single c => _evaluate_condition slots c

/-- Truthy slot key of a condition, as collected for evidence
(`slot_key = c.get("slot"); if slot_key:`). -/
def condition_slot_key (c : Condition) : Option String :=
  match c.slot with
  | none => none
  | some k => if k = "" then none else some k

/-- Evidence extraction of evaluate_risk_rules:
`rule_json.get("all", rule_json.get("any", [rule_json]))`, keeping the
truthy slot keys in declaration order. -/
def rule_evidence (rule_json : RuleCond) : List String :=
  match rule_json with
  | .all conditions => conditions.filterMap condition_slot_key
  | .any conditions => conditions.filterMap condition_slot_key
  | .single c => ([c].filterMap condition_slot_key)

/-- RiskFlag built by evaluate_risk_rules for a matching rule. -/
def mk_risk_flag (rule : RiskRule) : RiskFlag :=
  { code := rule.code.getD "UNKNOWN"
    severity := rule.severity.getD "medium"
    note := rule.note_template
    evidence := rule_evidence rule.rule_json }

/-- risk.evaluate_risk_rules: disabled rules are skipped; each matching
rule appends exactly one flag, in rule order. -/
def evaluate_risk_rules (slots : Slots) (rules : List RiskRule) : List RiskFlag :=
  rules.filterMap (fun rule =>
    if !rule.enabled then none
    else if _evaluate_rule slots rule.rule_json then some (mk_risk_flag rule)
    else none)

/-- One critical-slot entry of the quick policy (`cs.get("id", "")` /
`cs["id"]`; only the id is read by the embedded operations). -/
structure CriticalSlot where
  id : String
deriving DecidableEq

/-- quick_policy.QuickPolicy, restricted to the fields the embedded
operations read (`scoring_weights` and `question_pool` feed only
quick_adjustment / pool filtering, which no claim touches). -/
structure QuickPolicy where
  enabled : Bool
  max_questions : Nat
  max_clarifications : Nat
  low_info_streak_max : Nat
  critical_slots : List CriticalSlot
  clarify_threshold : ℚ
deriving DecidableEq

/-- Raw slot dict `{"value": ..., "confidence": ...}` as held in
`state["slots"]` and passed to the quick-policy functions. -/
structure RawSlot where
  value : Option String
  confidence : ℚ
deriving DecidableEq

/-- Raw slot map `Dict[str, Dict]`: `none` means the key is absent. -/
def RawSlots : Type := String → Option RawSlot

/-- `slots.get(slot_id, {}).get("value")`: the value of a raw slot, `none`
when the entry is absent or its value is null. -/
def raw_value (slots : RawSlots) (slot_id : String) : Option String :=
  match slots slot_id with
  | none => none
  | some r => r.value

/-- Critical-slot loop of evaluate_stop_conditions: all critical slots
have a non-null value (confidence is not consulted). -/
def all_critical_filled (policy : QuickPolicy) (slots : RawSlots) : Bool :=
  policy.critical_slots.all (fun cs => (raw_value slots cs.id).isSome)

/-- quick_policy.evaluate_stop_conditions: 3A critical slots (guarded by a
non-empty configured list), then 3B max questions, then 3C low-info
streak; first match wins. -/
def evaluate_stop_conditions (policy : QuickPolicy) (slots : RawSlots)
    (asked_count : Nat) (low_info_streak : Nat) : Bool × Option String :=
  if !policy.critical_slots.isEmpty && all_critical_filled policy slots then
    (true, some "critical_slots_met")
  else if policy.max_questions ≤ asked_count then
    (true, some "max_questions")
  else if policy.low_info_streak_max ≤ low_info_streak then
    (true, some "low_info_streak")
  else
    (false, none)

/-- quick_policy.calculate_quick_progress: percentage of critical slots
with a non-null value, 0 when none are configured (Python's
`int(100 * filled / total)` truncates the non-negative ratio, i.e. floor). -/
def calculate_quick_progress (policy : QuickPolicy) (slots : RawSlots) : Nat :=
  if policy.critical_slots.isEmpty then 0
  else
    let filled := (policy.critical_slots.filter
      (fun cs => (raw_value slots cs.id).isSome)).length
    (100 * filled) / policy.critical_slots.length

/-- Quick-mode turn-local counters carried in `state["quick_state"]`. -/
structure QuickState where
  asked_count : Nat
  low_info_streak : Nat
deriving DecidableEq

/-- Per-turn counter update of routers.session.submit_answer (quick mode):
`is_low_info = len(slots_updated) == 0 or len(answer_text.strip()) < 15`;
a low-info answer increments the streak, an informative one resets it to
0; `asked_count` is incremented. -/
def quick_turn (qs : QuickState) (slots_updated_count : Nat) (answer_text : String) : QuickState :=
  let is_low_info := slots_updated_count = 0 ∨ (py_strip answer_text).length < 15
  { asked_count := qs.asked_count + 1
    low_info_streak := if is_low_info then qs.low_info_streak + 1 else 0 }

/-- Precise-mode completion predicate of routers.session.submit_answer:
`questions_asked >= 6 and (progress_percent >= 90 or questions_asked >= max_questions)`
with `max_questions = 12`. -/
def precise_is_complete (questions_asked : Nat) (progress_percent : Int) : Bool :=
  let max_questions : Nat := 12
  decide (6 ≤ questions_asked) &&
    (decide (90 ≤ progress_percent) || decide (max_questions ≤ questions_asked))

/-- Spec-worded missing-slot set (§4.3): a defined slot is missing iff it
has no value in the slot map or its confidence is below the threshold.
Compared against `compute_missing_slots` in the C2 refinement theorem. -/
def missing_slots_spec (slot_definitions : List SlotDef) (slots : Slots)
    (confidence_threshold : ℚ) : Finset String :=
  ((slot_definitions.filterMap slot_def_key).filter (fun slot_key =>
      match slots slot_key with
      | none => true
      | some sv => decide (sv.confidence < confidence_threshold))).toFinset

/-- Spec-worded selection (§4.3): exclude disabled questions and questions
in the skip-filter's exclusion set, score the remainder, stable-sort
descending by score, return the first `count`.  Compared against
`select_next_questions` in the C2 refinement theorem. -/
def select_top_spec (questions : List QuestionDef) (slots : Slots)
    (risk_flags : List RiskFlag) (asked_question_ids : List String)
    (current_round : Int) (weights : ScoringWeights)
    (slot_definitions : List SlotDef) (skip_rules : List SkipRule)
    (count : Nat) (confidence_threshold : ℚ) : List Question :=
  let excluded := evaluate_skip_rules skip_rules slots
  let missing := missing_slots_spec slot_definitions slots confidence_threshold
  let required := compute_required_slots slot_definitions
  let codes := (risk_flags.map RiskFlag.code).toFinset
  let asked := asked_question_ids.toFinset
  let candidates := questions.filter
    (fun q => q.enabled && !(decide (q.question_id ∈ excluded)))
  let scored := candidates.map (fun q =>
    (calculate_question_score q current_round missing codes asked required weights, q))
  ((sort_by_score_desc scored).take count).map (fun p => question_output p.2)

/-- Configuration snapshot threaded through the state-passing embedding of
the engine operations (the structures claim C9 says are never mutated). -/
structure EngineConfig where
  questions : List QuestionDef
  slot_definitions : List SlotDef
  skip_rules : List SkipRule
  risk_rules : List RiskRule
  weights : ScoringWeights

/-- The mutable-in-principle inputs of one evaluation: the configuration
snapshot together with the slot-value map. -/
def ConfigState : Type := EngineConfig × Slots

/-- State-passing form of the evaluate_risk_rules loop: each iteration
reads the slot map and appends to the local flag list only, so the slot
map is threaded through unchanged. -/
def evaluate_risk_rules_loop_st (rules : List RiskRule) (slots : Slots)
    (acc : List RiskFlag) : List RiskFlag × Slots :=
  match rules with
  | [] => (acc, slots)
  | rule :: rest =>
      if !rule.enabled then evaluate_risk_rules_loop_st rest slots acc
      else if _evaluate_rule slots rule.rule_json then
        evaluate_risk_rules_loop_st rest slots (acc ++ [mk_risk_flag rule])
      else evaluate_risk_rules_loop_st rest slots acc

/-- State-passing evaluate_risk_rules over a configuration/slot state. -/
def evaluate_risk_rules_st (st : ConfigState) : List RiskFlag × ConfigState :=
  let r := evaluate_risk_rules_loop_st st.1.risk_rules st.2 []
  (r.1, (st.1, r.2))

/-- State-passing form of the evaluate_skip_rules loop, threading the slot
map through each iteration. -/
def evaluate_skip_rules_loop_st (skip_rules : List SkipRule) (slots : Slots)
    (acc : Finset String) : Finset String × Slots :=
  match skip_rules with
  | [] => (acc, slots)
  | rule :: rest =>
      match slots rule.condition_slot with
      | none => evaluate_skip_rules_loop_st rest slots acc
      | some sv =>
          if skip_condition_met rule sv then
            evaluate_skip_rules_loop_st rest slots (acc ∪ rule.skip_question_ids.toFinset)
          else
            evaluate_skip_rules_loop_st rest slots acc

/-- State-passing evaluate_skip_rules over a configuration/slot state. -/
def evaluate_skip_rules_st (st : ConfigState) : Finset String × ConfigState :=
  let r := evaluate_skip_rules_loop_st st.1.skip_rules st.2 ∅
  (r.1, (st.1, r.2))

/-- State-passing select_next_questions over a configuration/slot state:
the selection only reads the snapshot (its loops write local lists), so
the state component is returned as received. -/
def select_next_questions_st (st : ConfigState) (risk_flags : List RiskFlag)
    (asked_question_ids : List String) (current_round : Int)
    (count : Nat) (confidence_threshold : ℚ) : List Question × ConfigState :=
  (select_next_questions st.1.questions st.2 risk_flags asked_question_ids current_round
      st.1.weights st.1.slot_definitions st.1.skip_rules count confidence_threshold,
   st)

/-- Empty slot-value map (no slot extracted yet). -/
def no_slot_values : Slots := fun _ => none

/-- Empty raw slot map. -/
def no_raw_slots : RawSlots := fun _ => none

/-- QuickPolicy dataclass defaults: max 8 questions, streak max 2, no
critical slots. -/
def policy_default : QuickPolicy :=
  { enabled := true, max_questions := 8, max_clarifications := 0,
    low_info_streak_max := 2, critical_slots := [], clarify_threshold := 11/20 }

/-- Quick policy with two configured critical slots X and Y. -/
def policy_xy : QuickPolicy :=
  { enabled := true, max_questions := 8, max_clarifications := 0,
    low_info_streak_max := 2, critical_slots := [⟨"X"⟩, ⟨"Y"⟩],
    clarify_threshold := 11/20 }

/-- Raw slots where X and Y hold values with confidence 0. -/
def raw_slots_xy : RawSlots := fun k =>
  if k = "X" then some { value := some "30", confidence := 0 }
  else if k = "Y" then some { value := some "taip", confidence := 0 }
  else none

/-- Example skip rule: exclude the lake question unless the location
mentions a city. -/
def skip_rule_ex : SkipRule :=
  { condition_slot := "location", condition_type := "not_contains_any",
    condition_values := ["miestas"], skip_question_ids := ["q_lake"] }

/-- Example slot map with a filled location slot. -/
def slots_location : Slots := fun k =>
  if k = "location" then some { value := some "prie ezero", confidence := 9/10 }
  else none

/-- Example risk rule: fires when the location mentions a lake. -/
def risk_rule_ex : RiskRule :=
  { enabled := true, code := some "WATER", severity := some "high",
    note_template := none,
    rule_json := .single { slot := some "location", op := .contains_any ["ezero"] } }

/-- Example question covering the location slot. -/
def question_ex : QuestionDef :=
  { question_id := "q1", text_lt := some "Kur statysite pirti?", text_en := none,
    base_priority := 50, round_hint := some 1, slot_coverage := ["location"],
    risk_coverage := [], enabled := true }

/-- Scoring weight defaults of calculate_question_score. -/
def weights_default : ScoringWeights :=
  { base_priority := 1/10, missing_slot := 3, required_slot_bonus := 2,
    risk := 2, round_fit := 3/2, asked_penalty := -5 }

/-- Slot map where the location entry exists but its value is null. -/
def slots_location_null : Slots := fun k =>
  if k = "location" then some { value := none, confidence := 0 } else none

/-- A two-element scored list already in descending score order. -/
def sorted_pair_ex : List (ℚ × QuestionDef) := [(2, question_ex), (1, question_ex)]

/-- C1: for every question and context, the score computed by
calculate_question_score equals the sum of exactly six terms: the weighted
base priority, the weighted count of covered missing slots, the weighted
count of covered required missing slots, the weighted count of covered
active risk codes, the round-fit bonus when the round hint equals the
current round, and the asked penalty when the question was already
asked. -/
theorem score_is_sum_of_terms (question : QuestionDef) (current_round : Int)
    (missing_slots active_risk_codes asked_question_ids required_slots : Finset String)
    (weights : ScoringWeights) :
    calculate_question_score question current_round missing_slots active_risk_codes
        asked_question_ids required_slots weights =
      question.base_priority * weights.base_priority
      + (question.slot_coverage.toFinset ∩ missing_slots).card * weights.missing_slot
      + (question.slot_coverage.toFinset ∩ required_slots ∩ missing_slots).card
          * weights.required_slot_bonus
      + (question.risk_coverage.toFinset ∩ active_risk_codes).card * weights.risk
      + (if question.round_hint = some current_round then weights.round_fit else 0)
      + (if question.question_id ∈ asked_question_ids then weights.asked_penalty else 0) := by
  simp only [calculate_question_score]
  split_ifs <;> ring

/-- C8: holding everything fixed except membership of the question's id in
the asked set, the score with the id present is the score with it absent
plus `weights.asked_penalty` exactly; when the penalty is negative (its
documented sign, default -5.0) the asked score is strictly lower. -/
theorem asked_penalty_exact_difference (question : QuestionDef) (current_round : Int)
    (missing_slots active_risk_codes required_slots asked : Finset String)
    (weights : ScoringWeights) :
    calculate_question_score question current_round missing_slots active_risk_codes
        (insert question.question_id asked) required_slots weights
      = calculate_question_score question current_round missing_slots active_risk_codes
          (asked.erase question.question_id) required_slots weights
        + weights.asked_penalty
    ∧ (weights.asked_penalty < 0 →
        calculate_question_score question current_round missing_slots active_risk_codes
            (insert question.question_id asked) required_slots weights
          < calculate_question_score question current_round missing_slots active_risk_codes
              (asked.erase question.question_id) required_slots weights) := by
  have h1 : question.question_id ∈ insert question.question_id asked :=
    Finset.mem_insert_self _ _
  have h2 : question.question_id ∉ asked.erase question.question_id :=
    Finset.not_mem_erase _ _
  have heq : calculate_question_score question current_round missing_slots active_risk_codes
        (insert question.question_id asked) required_slots weights
      = calculate_question_score question current_round missing_slots active_risk_codes
          (asked.erase question.question_id) required_slots weights
        + weights.asked_penalty := by
    simp only [calculate_question_score, h1, h2, if_true, if_false]
  exact ⟨heq, fun hneg => by rw [heq]; linarith⟩

/-- Witness for C8 at the default weights (`asked_penalty = -5`): the
example question scores strictly lower once its id is in the asked set. -/
theorem asked_penalty_exact_difference_witness :
    calculate_question_score question_ex 1 ∅ ∅ (insert "q1" ∅) ∅ weights_default
      < calculate_question_score question_ex 1 ∅ ∅ (Finset.erase ∅ "q1") ∅ weights_default := by
  have h := asked_penalty_exact_difference question_ex 1 ∅ ∅ ∅ ∅ weights_default
  exact h.2 (by norm_num [weights_default])

/-- C4: the precise-mode policy declares completion iff at least 6
questions were asked and (progress is at least 90 percent or at least 12
questions were asked); in particular 5 questions at 100 percent progress
does not stop and 6 questions at the same progress does. -/
theorem precise_completion_iff :
    (∀ (questions_asked : Nat) (progress_percent : Int),
        precise_is_complete questions_asked progress_percent = true ↔
          (6 ≤ questions_asked ∧ (90 ≤ progress_percent ∨ 12 ≤ questions_asked)))
    ∧ precise_is_complete 5 100 = false
    ∧ precise_is_complete 6 100 = true := by
  refine ⟨fun questions_asked progress_percent => ?_, by decide, by decide⟩
  simp [precise_is_complete]

/-- C5: quick-mode stop conditions are checked in the fixed precedence
order critical_slots_met, max_questions, low_info_streak, and the first
match determines the reason; critical_slots_met requires a non-empty
configured critical-slot list whose every slot has a non-null value (its
confidence is never read), and then fires even at asked_count = 0 and
low_info_streak = 0. -/
theorem quick_stop_precedence (policy : QuickPolicy) (slots : RawSlots)
    (asked_count low_info_streak : Nat) :
    ((!policy.critical_slots.isEmpty && all_critical_filled policy slots) = true →
      evaluate_stop_conditions policy slots asked_count low_info_streak
        = (true, some "critical_slots_met"))
    ∧ ((!policy.critical_slots.isEmpty && all_critical_filled policy slots) = false →
        policy.max_questions ≤ asked_count →
        evaluate_stop_conditions policy slots asked_count low_info_streak
          = (true, some "max_questions"))
    ∧ ((!policy.critical_slots.isEmpty && all_critical_filled policy slots) = false →
        asked_count < policy.max_questions →
        policy.low_info_streak_max ≤ low_info_streak →
        evaluate_stop_conditions policy slots asked_count low_info_streak
          = (true, some "low_info_streak"))
    ∧ ((!policy.critical_slots.isEmpty && all_critical_filled policy slots) = false →
        asked_count < policy.max_questions →
        low_info_streak < policy.low_info_streak_max →
        evaluate_stop_conditions policy slots asked_count low_info_streak
          = (false, none))
    ∧ (all_critical_filled policy slots = true ↔
        ∀ cs ∈ policy.critical_slots, (raw_value slots cs.id).isSome = true) := by
  refine ⟨fun hc => ?_, fun hc hm => ?_, fun hc hm hl => ?_, fun hc hm hl => ?_, ?_⟩
  · simp [evaluate_stop_conditions, hc]
  · simp [evaluate_stop_conditions, hc, hm]
  · simp [evaluate_stop_conditions, hc, Nat.not_le.mpr hm, hl]
  · simp [evaluate_stop_conditions, hc, Nat.not_le.mpr hm, Nat.not_le.mpr hl]
  · simp [all_critical_filled, List.all_eq_true]

/-- Witness for C5: with critical slots X and Y both holding values of
confidence 0, the evaluation at asked_count = 0 and low_info_streak = 0
stops with reason critical_slots_met. -/
theorem quick_stop_precedence_witness :
    evaluate_stop_conditions policy_xy raw_slots_xy 0 0
      = (true, some "critical_slots_met") :=
  (quick_stop_precedence policy_xy raw_slots_xy 0 0).1 (by decide)

/-- C10: with an empty configured critical-slot list the quick-mode stop
evaluation never returns critical_slots_met (only max_questions and
low_info_streak can stop), and the quick progress percentage is 0
regardless of the slot map. -/
theorem empty_critical_slots_no_stop (policy : QuickPolicy) (slots : RawSlots)
    (asked_count low_info_streak : Nat) (hempty : policy.critical_slots = []) :
    (evaluate_stop_conditions policy slots asked_count low_info_streak).2
        ≠ some "critical_slots_met"
    ∧ (evaluate_stop_conditions policy slots asked_count low_info_streak
          = (true, some "max_questions")
        ∨ evaluate_stop_conditions policy slots asked_count low_info_streak
          = (true, some "low_info_streak")
        ∨ evaluate_stop_conditions policy slots asked_count low_info_streak
          = (false, none))
    ∧ calculate_quick_progress policy slots = 0 := by
  have hc : (!policy.critical_slots.isEmpty && all_critical_filled policy slots) = false := by
    simp [hempty]
  refine ⟨?_, ?_, ?_⟩
  · simp only [evaluate_stop_conditions, hc, Bool.false_eq_true, if_false]
    split_ifs <;> simp
  · simp only [evaluate_stop_conditions, hc, Bool.false_eq_true, if_false]
    split_ifs <;> simp
  · simp [calculate_quick_progress, hempty]

/-- Witness for C10: the default policy has no critical slots, so even
with every raw slot filled the progress is 0 and the initial evaluation
does not stop with critical_slots_met. -/
theorem empty_critical_slots_no_stop_witness :
    (evaluate_stop_conditions policy_default
        (fun _ => some { value := some "x", confidence := 1 }) 0 0).2
      ≠ some "critical_slots_met"
    ∧ calculate_quick_progress policy_default
        (fun _ => some { value := some "x", confidence := 1 }) = 0 := by
  have h := empty_critical_slots_no_stop policy_default
    (fun _ => some { value := some "x", confidence := 1 }) 0 0 rfl
  exact ⟨h.1, h.2.2⟩

/-- Counterexample to C6 as stated: with the default quick policy
(`low_info_streak_max = 2`, no critical slots, `max_questions = 8`) and
two consecutive answers of fewer than 15 trimmed characters, the SECOND
answer's evaluation already returns stop_reason = low_info_streak — the
claimed "on the third answer's evaluation, and not before" fails, since
the streak update runs before the stop check and 2 >= 2. -/
theorem low_info_stop_on_second_counterexample :
    evaluate_stop_conditions policy_default no_raw_slots
        (quick_turn (quick_turn ⟨0, 0⟩ 1 "trumpa") 1 "trumpa").asked_count
        (quick_turn (quick_turn ⟨0, 0⟩ 1 "trumpa") 1 "trumpa").low_info_streak
      = (true, some "low_info_streak") := by decide

/-- C6 amended: a short answer (fewer than 15 trimmed characters) always
increments the low-info streak, an informative answer (some slot updated
and at least 15 trimmed characters) resets it to 0, and with
`low_info_streak_max = 2`, a streak starting at 0 and no other stop
condition firing first, consecutive short answers produce
stop_reason = low_info_streak on the SECOND short answer's evaluation
(when the streak reaches the maximum) and not on the first. -/
theorem low_info_streak_behavior :
    (∀ (qs : QuickState) (slots_updated_count : Nat) (answer_text : String),
        (py_strip answer_text).length < 15 →
        quick_turn qs slots_updated_count answer_text
          = ⟨qs.asked_count + 1, qs.low_info_streak + 1⟩)
    ∧ (∀ (qs : QuickState) (slots_updated_count : Nat) (answer_text : String),
        slots_updated_count ≠ 0 → 15 ≤ (py_strip answer_text).length →
        quick_turn qs slots_updated_count answer_text = ⟨qs.asked_count + 1, 0⟩)
    ∧ (∀ (policy : QuickPolicy) (slots : RawSlots) (qs : QuickState)
          (su1 su2 : Nat) (t1 t2 : String),
        policy.low_info_streak_max = 2 →
        qs.low_info_streak = 0 →
        (!policy.critical_slots.isEmpty && all_critical_filled policy slots) = false →
        qs.asked_count + 2 < policy.max_questions →
        (py_strip t1).length < 15 → (py_strip t2).length < 15 →
        (evaluate_stop_conditions policy slots
            (quick_turn qs su1 t1).asked_count
            (quick_turn qs su1 t1).low_info_streak
          = (false, none)
        ∧ evaluate_stop_conditions policy slots
            (quick_turn (quick_turn qs su1 t1) su2 t2).asked_count
            (quick_turn (quick_turn qs su1 t1) su2 t2).low_info_streak
          = (true, some "low_info_streak"))) := by
  have hshort : ∀ (qs : QuickState) (su : Nat) (t : String),
      (py_strip t).length < 15 →
      quick_turn qs su t = ⟨qs.asked_count + 1, qs.low_info_streak + 1⟩ := by
    intro qs su t ht
    simp [quick_turn, ht]
  refine ⟨hshort, ?_, ?_⟩
  · intro qs su t hsu ht
    simp [quick_turn, hsu, Nat.not_lt.mpr ht]
  · intro policy slots qs su1 su2 t1 t2 hmax hzero hcrit hroom ht1 ht2
    rw [hshort qs su1 t1 ht1, hshort ⟨qs.asked_count + 1, qs.low_info_streak + 1⟩ su2 t2 ht2]
    constructor
    · have h1 : qs.asked_count + 1 < policy.max_questions := by omega
      simp [evaluate_stop_conditions, hcrit, Nat.not_le.mpr h1, hmax, hzero,
        Nat.not_le.mpr (by omega : qs.low_info_streak + 1 < 2)]
    · have h2 : qs.asked_count + 1 + 1 < policy.max_questions := by omega
      simp [evaluate_stop_conditions, hcrit, Nat.not_le.mpr h2, hmax, hzero]

/-- Witness for C6's amended theorem: starting fresh under the default
policy, the first short answer does not stop and the second stops with
low_info_streak. -/
theorem low_info_streak_behavior_witness :
    evaluate_stop_conditions policy_default no_raw_slots
        (quick_turn ⟨0, 0⟩ 1 "per trumpa").asked_count
        (quick_turn ⟨0, 0⟩ 1 "per trumpa").low_info_streak
      = (false, none)
    ∧ evaluate_stop_conditions policy_default no_raw_slots
        (quick_turn (quick_turn ⟨0, 0⟩ 1 "per trumpa") 1 "per trumpa").asked_count
        (quick_turn (quick_turn ⟨0, 0⟩ 1 "per trumpa") 1 "per trumpa").low_info_streak
      = (true, some "low_info_streak") :=
  low_info_streak_behavior.2.2 policy_default no_raw_slots ⟨0, 0⟩ 1 1
    "per trumpa" "per trumpa" rfl rfl (by decide) (by decide) (by decide) (by decide)

/-- A string whose character list is empty is the empty string. -/
theorem toList_eq_nil_iff (s : String) : s.toList = [] ↔ s = "" := by
  cases s with
  | mk l => simp [String.toList, String.ext_iff]

/-- Lower-casing preserves (non-)emptiness. -/
theorem str_lower_eq_empty_iff (s : String) : str_lower s = "" ↔ s = "" := by
  cases s with
  | mk l => simp [str_lower, String.ext_iff]

/-- The skip-rule fold only grows its accumulator. -/
theorem skip_from_acc_subset (rules : List SkipRule) (slots : Slots) (acc : Finset String) :
    acc ⊆ evaluate_skip_rules_from rules slots acc := by
  induction rules generalizing acc with
  | nil => simp [evaluate_skip_rules_from]
  | cons rule rest ih =>
      cases h : slots rule.condition_slot with
      | none => simpa [evaluate_skip_rules_from, h] using ih acc
      | some sv =>
          by_cases hmet : skip_condition_met rule sv = true
          · simp only [evaluate_skip_rules_from, h, hmet, if_true]
            exact Finset.Subset.trans Finset.subset_union_left (ih _)
          · simpa [evaluate_skip_rules_from, h, hmet] using ih acc

/-- A rule whose condition slot is present and whose condition holds
contributes its skip ids to the fold's result, wherever it sits in the
rule list. -/
theorem skip_from_fired_subset (rules : List SkipRule) (slots : Slots) (rule : SkipRule)
    (sv : SlotValue) (hmem : rule ∈ rules) (hslot : slots rule.condition_slot = some sv)
    (hmet : skip_condition_met rule sv = true) (acc : Finset String) :
    rule.skip_question_ids.toFinset ⊆ evaluate_skip_rules_from rules slots acc := by
  revert hmem
  induction rules generalizing acc with
  | nil => intro hmem; cases hmem
  | cons head rest ih =>
      intro hmem
      rcases List.mem_cons.mp hmem with heq | hmem2
      · subst heq
        simp only [evaluate_skip_rules_from, hslot, hmet, if_true]
        exact Finset.Subset.trans Finset.subset_union_right (skip_from_acc_subset rest slots _)
      · cases h : slots head.condition_slot with
        | none => simpa [evaluate_skip_rules_from, h] using ih acc hmem2
        | some sv2 =>
            by_cases hm2 : skip_condition_met head sv2 = true
            · simpa [evaluate_skip_rules_from, h, hm2] using ih _ hmem2
            · simpa [evaluate_skip_rules_from, h, hm2] using ih acc hmem2

/-- Counterexample to C7 as stated: a not_contains_any skip rule with the
non-empty comparison value "miestas" does NOT fire when its condition slot
is absent from the slot map — the loop skips the rule (`continue`) instead
of comparing against the empty string, so no question id is excluded. -/
theorem skip_absent_slot_counterexample :
    evaluate_skip_rules [skip_rule_ex] no_slot_values = ∅
    ∧ "q_lake" ∉ evaluate_skip_rules [skip_rule_ex] no_slot_values := by
  exact ⟨by decide, by decide⟩

/-- C7 amended: a skip rule's condition is evaluated only when its
condition slot is PRESENT in the slot map (an absent slot skips the rule
entirely); for a present slot the stringified lower-cased value (null or
falsy value ⇒ empty string) is compared, so not_contains_any with
non-empty comparison values fires for a present slot with a null value,
and every fired rule contributes its skip_question_ids to the exclusion
set. -/
theorem skip_rule_semantics (rule : SkipRule) (slots : Slots) :
    (slots rule.condition_slot = none → evaluate_skip_rules [rule] slots = ∅)
    ∧ (∀ sv, slots rule.condition_slot = some sv →
        evaluate_skip_rules [rule] slots =
          if skip_condition_met rule sv then rule.skip_question_ids.toFinset else ∅)
    ∧ (∀ sv, slots rule.condition_slot = some sv → sv.value = none →
        rule.condition_type = "not_contains_any" →
        (∀ v ∈ rule.condition_values, v ≠ "") →
        evaluate_skip_rules [rule] slots = rule.skip_question_ids.toFinset)
    ∧ (∀ (rules : List SkipRule) (sv : SlotValue), rule ∈ rules →
        slots rule.condition_slot = some sv → skip_condition_met rule sv = true →
        rule.skip_question_ids.toFinset ⊆ evaluate_skip_rules rules slots) := by
  have hcond : ∀ sv, sv.value = none → rule.condition_type = "not_contains_any" →
      (∀ v ∈ rule.condition_values, v ≠ "") → skip_condition_met rule sv = true := by
    intro sv hv ht hvals
    have hstr : skip_slot_str sv = "" := by simp [skip_slot_str, hv]
    have hany : rule.condition_values.any
        (fun v => str_contains (skip_slot_str sv) (str_lower v)) = false := by
      rw [List.any_eq_false]
      intro v hvmem
      have hne := hvals v hvmem
      rw [hstr]
      simp only [str_contains, decide_eq_true_eq]
      rw [show ("" : String).toList = [] from rfl, List.infix_nil, toList_eq_nil_iff,
        str_lower_eq_empty_iff]
      exact hne
    simp [skip_condition_met, ht, hany]
  refine ⟨?_, ?_, ?_, ?_⟩
  · intro h
    simp [evaluate_skip_rules, evaluate_skip_rules_from, h]
  · intro sv h
    simp only [evaluate_skip_rules, evaluate_skip_rules_from, h]
    split_ifs with hmet <;> simp [evaluate_skip_rules_from]
  · intro sv h hv ht hvals
    simp [evaluate_skip_rules, evaluate_skip_rules_from, h, hcond sv hv ht hvals]
  · intro rules sv hmem h hmet
    exact skip_from_fired_subset rules slots rule sv hmem h hmet ∅

/-- Witness for C7's amended theorem: with the location entry present but
null-valued, the not_contains_any rule fires and excludes q_lake. -/
theorem skip_rule_semantics_witness :
    evaluate_skip_rules [skip_rule_ex] slots_location_null = {"q_lake"} := by
  have h := (skip_rule_semantics skip_rule_ex slots_location_null).2.2.1
    { value := none, confidence := 0 } (by decide) rfl rfl (by decide)
  simpa using h

/-- C3: for an enabled risk rule, the rule fires iff its condition tree
holds — an all node iff every child condition holds, an any node iff some
child holds, a bare condition iff it holds directly — and a firing rule
emits exactly one RiskFlag carrying the rule's code, severity and note,
with evidence the (truthy) slot keys of its conditions in declaration
order (for a bare condition, that condition's slot). -/
theorem risk_rule_semantics (slots : Slots) (rule : RiskRule)
    (henabled : rule.enabled = true) :
    (∀ conditions, rule.rule_json = RuleCond.all conditions →
      (_evaluate_rule slots rule.rule_json = true ↔
        ∀ c ∈ conditions, _evaluate_condition slots c = true))
    ∧ (∀ conditions, rule.rule_json = RuleCond.any conditions →
      (_evaluate_rule slots rule.rule_json = true ↔
        ∃ c ∈ conditions, _evaluate_condition slots c = true))
    ∧ (∀ c, rule.rule_json = RuleCond.single c →
      (_evaluate_rule slots rule.rule_json = true ↔
        _evaluate_condition slots c = true))
    ∧ evaluate_risk_rules slots [rule] =
        (if _evaluate_rule slots rule.rule_json then
          [{ code := rule.code.getD "UNKNOWN", severity := rule.severity.getD "medium",
             note := rule.note_template, evidence := rule_evidence rule.rule_json }]
        else [])
    ∧ (∀ conditions, rule.rule_json = RuleCond.all conditions ∨
        rule.rule_json = RuleCond.any conditions →
        rule_evidence rule.rule_json = conditions.filterMap condition_slot_key)
    ∧ (∀ c, rule.rule_json = RuleCond.single c →
        rule_evidence rule.rule_json = [c].filterMap condition_slot_key) := by
  refine ⟨?_, ?_, ?_, ?_, ?_, ?_⟩
  · intro conditions hshape
    rw [hshape]
    simp [_evaluate_rule, List.all_eq_true]
  · intro conditions hshape
    rw [hshape]
    simp [_evaluate_rule, List.any_eq_true]
  · intro c hshape
    rw [hshape]
    simp [_evaluate_rule]
  · by_cases hr : _evaluate_rule slots rule.rule_json = true
    · simp [evaluate_risk_rules, List.filterMap_cons, henabled, hr, mk_risk_flag]
    · simp [evaluate_risk_rules, List.filterMap_cons, henabled, hr, mk_risk_flag]
  · intro conditions hshape
    rcases hshape with h | h <;> rw [h] <;> rfl
  · intro c hshape
    rw [hshape]
    rfl

/-- Witness for C3: the enabled lake rule fires on `location = "prie
ezero"` and emits exactly one flag with its code, severity, note and the
condition's slot as evidence. -/
theorem risk_rule_semantics_witness :
    evaluate_risk_rules slots_location [risk_rule_ex]
      = [{ code := "WATER", severity := "high", note := none, evidence := ["location"] }] := by
  have h := (risk_rule_semantics slots_location risk_rule_ex rfl).2.2.2.1
  rw [h]
  decide

/-- The state-passing risk loop returns the slot map unchanged and
accumulates exactly the flags of evaluate_risk_rules. -/
theorem risk_loop_st_eq (rules : List RiskRule) (slots : Slots) (acc : List RiskFlag) :
    evaluate_risk_rules_loop_st rules slots acc
      = (acc ++ evaluate_risk_rules slots rules, slots) := by
  induction rules generalizing acc with
  | nil => simp [evaluate_risk_rules_loop_st, evaluate_risk_rules]
  | cons rule rest ih =>
      by_cases he : rule.enabled = true
      · by_cases hr : _evaluate_rule slots rule.rule_json = true
        · simp [evaluate_risk_rules_loop_st, evaluate_risk_rules, List.filterMap_cons,
            he, hr, ih]
        · simp [evaluate_risk_rules_loop_st, evaluate_risk_rules, List.filterMap_cons,
            he, hr, ih]
      · simp [evaluate_risk_rules_loop_st, evaluate_risk_rules, List.filterMap_cons,
          he, ih]

/-- The state-passing skip loop returns the slot map unchanged and
computes exactly the exclusion set of the skip fold. -/
theorem skip_loop_st_eq (rules : List SkipRule) (slots : Slots) (acc : Finset String) :
    evaluate_skip_rules_loop_st rules slots acc
      = (evaluate_skip_rules_from rules slots acc, slots) := by
  induction rules generalizing acc with
  | nil => simp [evaluate_skip_rules_loop_st, evaluate_skip_rules_from]
  | cons rule rest ih =>
      cases h : slots rule.condition_slot with
      | none => simp [evaluate_skip_rules_loop_st, evaluate_skip_rules_from, h, ih]
      | some sv =>
          by_cases hm : skip_condition_met rule sv = true <;>
            simp [evaluate_skip_rules_loop_st, evaluate_skip_rules_from, h, hm, ih]

/-- C9: threading the configuration snapshot and slot map through the
skip-filter, risk-evaluation and selection operations returns them
unchanged, and each operation's result is exactly the pure function of
its inputs — the embedded control flow performs no write to its
arguments. -/
theorem engine_operations_pure (st : ConfigState) (risk_flags : List RiskFlag)
    (asked_question_ids : List String) (current_round : Int) (count : Nat)
    (confidence_threshold : ℚ) :
    (evaluate_risk_rules_st st).2 = st
    ∧ (evaluate_risk_rules_st st).1 = evaluate_risk_rules st.2 st.1.risk_rules
    ∧ (evaluate_skip_rules_st st).2 = st
    ∧ (evaluate_skip_rules_st st).1 = evaluate_skip_rules st.1.skip_rules st.2
    ∧ (select_next_questions_st st risk_flags asked_question_ids current_round count
        confidence_threshold).2 = st
    ∧ (select_next_questions_st st risk_flags asked_question_ids current_round count
          confidence_threshold).1
        = select_next_questions st.1.questions st.2 risk_flags asked_question_ids
            current_round st.1.weights st.1.slot_definitions st.1.skip_rules count
            confidence_threshold := by
  refine ⟨?_, ?_, ?_, ?_, rfl, rfl⟩
  · simp [evaluate_risk_rules_st, risk_loop_st_eq]
  · simp [evaluate_risk_rules_st, risk_loop_st_eq]
  · simp [evaluate_skip_rules_st, skip_loop_st_eq, evaluate_skip_rules]
  · simp [evaluate_skip_rules_st, skip_loop_st_eq, evaluate_skip_rules]

/-- The missing-slot fold computes the accumulator unioned with the
spec-worded missing set. -/
theorem missing_slots_from_eq (slot_definitions : List SlotDef) (slots : Slots)
    (confidence_threshold : ℚ) (acc : Finset String) :
    missing_slots_from slot_definitions slots confidence_threshold acc
      = acc ∪ missing_slots_spec slot_definitions slots confidence_threshold := by
  induction slot_definitions generalizing acc with
  | nil => simp [missing_slots_from, missing_slots_spec]
  | cons sd rest ih =>
      cases hk : slot_def_key sd with
      | none =>
          simp [missing_slots_from, missing_slots_spec, List.filterMap_cons, hk, ih]
      | some slot_key =>
          cases hs : slots slot_key with
          | none =>
              simp [missing_slots_from, missing_slots_spec, List.filterMap_cons,
                List.filter_cons, hk, hs, ih, Finset.insert_union, Finset.union_insert]
          | some sv =>
              by_cases hc : sv.confidence < confidence_threshold
              · simp [missing_slots_from, missing_slots_spec, List.filterMap_cons,
                  List.filter_cons, hk, hs, hc, ih, Finset.insert_union, Finset.union_insert]
              · simp [missing_slots_from, missing_slots_spec, List.filterMap_cons,
                  List.filter_cons, hk, hs, hc, ih]

/-- The score-filter loop equals filtering the enabled, non-excluded
questions and pairing each with its score. -/
theorem scored_questions_eq (questions : List QuestionDef) (questions_to_skip : Finset String)
    (current_round : Int)
    (missing_slots active_risk_codes asked_set required_slots : Finset String)
    (weights : ScoringWeights) :
    scored_questions questions questions_to_skip current_round missing_slots
        active_risk_codes asked_set required_slots weights
      = (questions.filter
            (fun q => q.enabled && !(decide (q.question_id ∈ questions_to_skip)))).map
          (fun q => (calculate_question_score q current_round missing_slots
              active_risk_codes asked_set required_slots weights, q)) := by
  induction questions with
  | nil => simp [scored_questions]
  | cons q rest ih =>
      simp only [scored_questions, List.filterMap_cons, List.filter_cons] at ih ⊢
      by_cases he : q.enabled = true <;> by_cases hs : q.question_id ∈ questions_to_skip <;>
        simp [he, hs] <;> simpa using ih

/-- C2: selection equals the spec-worded pipeline — exclude disabled and
skip-filtered questions, score the remainder with a slot missing iff it
has no entry or its confidence is below the threshold (the call sites use
the default threshold 0.55), stable-sort descending by score, return the
first `count` — and the sort really is a descending, stable, permuting
sort (it leaves any already-descending list, i.e. ties in input order,
untouched).  Determinism holds by construction: the embedded selection is
a total function of its arguments alone. -/
theorem select_matches_spec (questions : List QuestionDef) (slots : Slots)
    (risk_flags : List RiskFlag) (asked_question_ids : List String)
    (current_round : Int) (weights : ScoringWeights)
    (slot_definitions : List SlotDef) (skip_rules : List SkipRule)
    (count : Nat) (confidence_threshold : ℚ) :
    select_next_questions questions slots risk_flags asked_question_ids current_round
        weights slot_definitions skip_rules count confidence_threshold
      = select_top_spec questions slots risk_flags asked_question_ids current_round
          weights slot_definitions skip_rules count confidence_threshold
    ∧ (∀ l : List (ℚ × QuestionDef),
        (sort_by_score_desc l).Pairwise (fun a b => b.1 ≤ a.1))
    ∧ (∀ l : List (ℚ × QuestionDef), (sort_by_score_desc l).Perm l)
    ∧ (∀ l : List (ℚ × QuestionDef),
        l.Pairwise (fun a b => b.1 ≤ a.1) → sort_by_score_desc l = l) := by
  have htrans : ∀ a b c : ℚ × QuestionDef,
      decide (b.1 ≤ a.1) = true → decide (c.1 ≤ b.1) = true →
      decide (c.1 ≤ a.1) = true := by
    intro a b c hab hbc
    simp only [decide_eq_true_eq] at hab hbc ⊢
    exact le_trans hbc hab
  have htotal : ∀ a b : ℚ × QuestionDef,
      (decide (b.1 ≤ a.1) || decide (a.1 ≤ b.1)) = true := by
    intro a b
    rcases le_total b.1 a.1 with h | h <;> simp [h]
  refine ⟨?_, ?_, ?_, ?_⟩
  · have hskip : (if skip_rules.isEmpty then (∅ : Finset String)
        else evaluate_skip_rules skip_rules slots) = evaluate_skip_rules skip_rules slots := by
      cases skip_rules <;> simp [evaluate_skip_rules, evaluate_skip_rules_from]
    have hmiss : compute_missing_slots slot_definitions slots confidence_threshold
        = missing_slots_spec slot_definitions slots confidence_threshold := by
      simpa [compute_missing_slots] using
        missing_slots_from_eq slot_definitions slots confidence_threshold ∅
    simp only [select_next_questions, select_top_spec, hskip, hmiss, scored_questions_eq]
  · intro l
    have h := List.sorted_mergeSort htrans htotal l
    exact h.imp (fun hd => by simpa [decide_eq_true_eq] using hd)
  · intro l
    exact List.mergeSort_perm l _
  · intro l hl
    exact List.mergeSort_of_sorted (hl.imp (fun hd => by simpa))

/-- Witness for C2's stability conjunct: an already-descending scored list
is left exactly as given (ties broken by input order). -/
theorem select_matches_spec_witness :
    sort_by_score_desc sorted_pair_ex = sorted_pair_ex :=
  (select_matches_spec [] no_slot_values [] [] 1 weights_default [] [] 0 (11/20)).2.2.2
    sorted_pair_ex (by decide)
